import Mathlib

/-
Verification of the `mai_util.pagerduty_client` module.

The module defines one client class, `PagerDutyClient`, with an eager
secret fetch in `__init__` and two operations, `trigger_incident` and
`resolve_incident`, plus a subclass `PagerDutyAlertClient` that only
overrides the class attribute `ROUTING_KEY_SECRET`.

Shallow embedding conventions:
- Python values appearing in JSON request/response bodies are modelled by
  the inductive `Json`; Python `None` is `Json.null`, Python dicts are
  association lists in insertion order.
- A Python exception is modelled by `PyExn`; its `isRequestExc` flag
  records whether the exception is an instance of
  `requests.exceptions.RequestException` (the only class caught by the
  `except` clauses of `trigger_incident` / `resolve_incident`).
- The behaviour of the HTTP transport (`requests.post`) is an arbitrary
  function from the request to an outcome: either a raised
  `RequestException` or a response carrying a status code, a text body and
  the outcome of `.json()` (a parse error is a `JSONDecodeError`, which is
  a `RequestException` subclass in `requests`).
- `Response.raise_for_status` raises `HTTPError` (a `RequestException`)
  exactly when `400 <= status < 600`, as documented by `requests`.
- The behaviour of the secret store (the whole
  `SecretManagerServiceClient ... access_secret_version ... decode` chain)
  is an arbitrary function from the secret path to `Except String String`:
  either any exception, or the decoded UTF-8 string value.
- Each operation returns the pair of (a) its outcome in `Except PyExn _`,
  where `Except.error` means an exception propagated to the caller, and
  (b) the list of HTTP POST requests it issued.
-/

namespace PagerDuty

/-- JSON values, standing for the Python values that appear in request and
response bodies. Objects are association lists in insertion order. -/
inductive Json where
  | null
  | bool (b : Bool)
  | num (n : Int)
  | str (s : String)
  | arr (elems : List Json)
  | obj (fields : List (String × Json))

/-- Python truthiness of a JSON-representable value (`if x:`). -/
def pyTruthy : Json → Bool
  | .null => false
  | .bool b => b
  | .num n => n != 0
  | .str s => s != ""
  | .arr elems => !elems.isEmpty
  | .obj fields => !fields.isEmpty

/-- Python `a or b` for JSON-representable values. -/
def pyOr (a b : Json) : Json :=
  if pyTruthy a then a else b

/-- Python truthiness of an `Optional[str]` (`None` and `""` are falsy). -/
def truthyOptStr : Option String → Bool
  | none => false
  | some s => s != ""

/-- Embeds a Python `Optional[str]` into `Json` (`None` becomes `null`). -/
def jsonOfOptStr : Option String → Json
  | none => .null
  | some s => .str s

/-- A Python exception. `isRequestExc` is true iff it is an instance of
`requests.exceptions.RequestException`. -/
structure PyExn where
  isRequestExc : Bool
  msg : String

/-- A `requests.Response`: status code, text body, and outcome of `.json()`
(`Except.error` is a `JSONDecodeError`). -/
structure HttpResponse where
  status : Nat
  text : String
  jsonBody : Except String Json

/-- Outcome of one `requests.post` call: either a raised
`RequestException` or a returned response. -/
inductive PostOutcome where
  | raised (msg : String)
  | ok (r : HttpResponse)

/-- An HTTP POST request as issued by the client: URL, the `json=` body,
the `Content-Type` header value, and the timeout in seconds. -/
structure PostRequest where
  url : String
  body : Json
  contentType : String
  timeout : Nat

/-- A transport behaviour: what `requests.post` does on each request. -/
def Transport : Type := PostRequest → PostOutcome

/-- A secret-store behaviour: given the full secret version path, either
raise (any exception, as a message) or produce the decoded UTF-8 value. -/
def SecretStore : Type := String → Except String String

/-- `requests.post` in the `Except` monad: a raised `RequestException`
becomes an error with `isRequestExc = true`. -/
def requestsPost (transport : Transport) (req : PostRequest) : Except PyExn HttpResponse :=
  match transport req with
  | .raised m => .error ⟨true, m⟩
  | .ok r => .ok r

/-- `Response.raise_for_status`: raises `HTTPError` (a `RequestException`)
iff the status code is in `[400, 600)`. -/
def raiseForStatus (r : HttpResponse) : Except PyExn Unit :=
  if 400 ≤ r.status ∧ r.status < 600 then .error ⟨true, "HTTPError"⟩ else .ok ()

/-- `Response.json()`: a parse failure raises `JSONDecodeError`, which is a
`RequestException` subclass. -/
def responseJson (r : HttpResponse) : Except PyExn Json :=
  match r.jsonBody with
  | .error m => .error ⟨true, m⟩
  | .ok j => .ok j

/-- Python `x.get(key)` on the result of `Response.json()`: defined for
dicts (missing key gives `None`), raises `AttributeError` (not a
`RequestException`) on every non-dict value. -/
def jsonGet (j : Json) (key : String) : Except PyExn Json :=
  match j with
  | .obj fields => .ok ((fields.lookup key).getD .null)
  | _ => .error ⟨false, "AttributeError"⟩

/-- A Python `try: ... except requests.exceptions.RequestException: ...`
block: the handler runs only for exceptions whose `isRequestExc` flag is
set; every other exception propagates. -/
def tryExceptRequestExc {α : Type} (attempt : Except PyExn α) (handler : PyExn → α) :
    Except PyExn α :=
  match attempt with
  | .ok a => .ok a
  | .error e => if e.isRequestExc then .ok (handler e) else .error e

/-- `PAGERDUTY_EVENTS_API_URL` from `client.py`. -/
def PAGERDUTY_EVENTS_API_URL : String := "https://events.pagerduty.com/v2/enqueue"

/-- Python `str.strip()`: drops leading and trailing whitespace. -/
def pyStrip (s : String) : String :=
  ⟨((s.data.dropWhile Char.isWhitespace).reverse.dropWhile Char.isWhitespace).reverse⟩

/-- The secret version path built in `PagerDutyClient.__init__`. -/
def secretPath (gcp_project secret_name : String) : String :=
  "projects/" ++ gcp_project ++ "/secrets/" ++ secret_name ++ "/versions/latest"

/-- The client state after `__init__`: the constructor arguments stored on
`self`. `routing_key` is `none` when secret retrieval failed. -/
structure Client where
  gcp_project : String
  routing_key : Option String

/-- The secret name selected in `__init__`:
`routing_key_secret or self.ROUTING_KEY_SECRET` (Python `or`, so an empty
or missing override falls back to the class attribute). -/
def chosenSecretName (routing_key_secret : Option String) (defaultSecret : String) : String :=
  match routing_key_secret with
  | some s => if s != "" then s else defaultSecret
  | none => defaultSecret

/-- `PagerDutyClient.__init__`, parameterised by the class attribute
`ROUTING_KEY_SECRET` (`defaultSecret`) and the secret-store behaviour.
Returns the constructed client and the list of secret paths fetched. -/
def clientInitCore (defaultSecret : String) (gcp_project : String)
    (routing_key_secret : Option String) (store : SecretStore) :
    Client × List String :=
  let secret_name := chosenSecretName routing_key_secret defaultSecret
  let path := secretPath gcp_project secret_name
  match store path with
  | .ok v => (⟨gcp_project, some (pyStrip v)⟩, [path])
  | .error _ => (⟨gcp_project, none⟩, [path])

/-- The base class attribute `PagerDutyClient.ROUTING_KEY_SECRET`. -/
def ROUTING_KEY_SECRET : String := "PAGERDUTY_ROUTING_KEY"

/-- The subclass attribute `PagerDutyAlertClient.ROUTING_KEY_SECRET`. -/
def ALERT_ROUTING_KEY_SECRET : String := "PAGERDUTY_VALIDATION_ALERTS_ROUTING_KEY"

/-- `PagerDutyClient(gcp_project, routing_key_secret)`. -/
def pagerDutyClientInit (gcp_project : String) (routing_key_secret : Option String)
    (store : SecretStore) : Client × List String :=
  clientInitCore ROUTING_KEY_SECRET gcp_project routing_key_secret store

/-- `PagerDutyAlertClient(gcp_project, routing_key_secret)`: inherits
`__init__` and only overrides `ROUTING_KEY_SECRET`. -/
def pagerDutyAlertClientInit (gcp_project : String) (routing_key_secret : Option String)
    (store : SecretStore) : Client × List String :=
  clientInitCore ALERT_ROUTING_KEY_SECRET gcp_project routing_key_secret store

/-- The request body built by `trigger_incident` (the `payload` local dict,
after the two conditional insertions). -/
def triggerBody (routing_key summary severity source : String)
    (custom_details : Option Json) (dedup_key : Option String) : Json :=
  let payloadFields := [("summary", Json.str summary),
    ("severity", Json.str severity), ("source", Json.str source)]
  let payloadFields :=
    match custom_details with
    | some cd => if pyTruthy cd then payloadFields ++ [("custom_details", cd)] else payloadFields
    | none => payloadFields
  let fields := [("routing_key", Json.str routing_key),
    ("event_action", Json.str "trigger"), ("payload", Json.obj payloadFields)]
  let fields :=
    match dedup_key with
    | some dk => if dk != "" then fields ++ [("dedup_key", Json.str dk)] else fields
    | none => fields
  Json.obj fields

/-- The POST request issued by `trigger_incident`. -/
def triggerRequest (routing_key summary severity source : String)
    (custom_details : Option Json) (dedup_key : Option String) : PostRequest :=
  ⟨PAGERDUTY_EVENTS_API_URL,
    triggerBody routing_key summary severity source custom_details dedup_key,
    "application/json", 10⟩

/-- `PagerDutyClient.trigger_incident`. Returns the outcome visible to the
caller (`Json.null` models returning `None`) and the list of HTTP POSTs
issued. -/
def trigger_incident (c : Client) (transport : Transport) (summary : String)
    (severity : String) (source : String) (custom_details : Option Json)
    (dedup_key : Option String) : Except PyExn Json × List PostRequest :=
  if !truthyOptStr c.routing_key then
    (.ok .null, [])
  else
    let rk := c.routing_key.getD ""
    let req := triggerRequest rk summary severity source custom_details dedup_key
    let attempt : Except PyExn Json := do
      let response ← requestsPost transport req
      raiseForStatus response
      let result ← responseJson response
      let fieldVal ← jsonGet result "dedup_key"
      pure (pyOr fieldVal (jsonOfOptStr dedup_key))
    (tryExceptRequestExc attempt (fun _ => Json.null), [req])

/-- The request body built by `resolve_incident`. -/
def resolveBody (routing_key dedup_key : String) (summary : Option String) : Json :=
  let fields := [("routing_key", Json.str routing_key),
    ("event_action", Json.str "resolve"), ("dedup_key", Json.str dedup_key)]
  let fields :=
    match summary with
    | some s => if s != "" then fields ++ [("payload", Json.obj [("summary", Json.str s)])] else fields
    | none => fields
  Json.obj fields

/-- The POST request issued by `resolve_incident`. -/
def resolveRequest (routing_key dedup_key : String) (summary : Option String) : PostRequest :=
  ⟨PAGERDUTY_EVENTS_API_URL, resolveBody routing_key dedup_key summary,
    "application/json", 10⟩

/-- `PagerDutyClient.resolve_incident`. Returns the outcome visible to the
caller and the list of HTTP POSTs issued. -/
def resolve_incident (c : Client) (transport : Transport) (dedup_key : String)
    (summary : Option String) : Except PyExn Bool × List PostRequest :=
  if !truthyOptStr c.routing_key then
    (.ok false, [])
  else
    let rk := c.routing_key.getD ""
    let req := resolveRequest rk dedup_key summary
    let attempt : Except PyExn Bool := do
      let response ← requestsPost transport req
      raiseForStatus response
      pure true
    (tryExceptRequestExc attempt (fun _ => false), [req])

/-- The trigger request body as the claim words it: `custom_details` is
added inside `payload` whenever it was provided, and `dedup_key` is added
at top level whenever it was provided. -/
def statedTriggerBody (routing_key summary severity source : String)
    (custom_details : Option Json) (dedup_key : Option String) : Json :=
  Json.obj
    ([("routing_key", Json.str routing_key), ("event_action", Json.str "trigger"),
      ("payload", Json.obj ([("summary", Json.str summary),
        ("severity", Json.str severity), ("source", Json.str source)] ++
        (match custom_details with
         | some cd => [("custom_details", cd)]
         | none => [])))] ++
      (match dedup_key with
       | some dk => [("dedup_key", Json.str dk)]
       | none => []))

/-- The trigger request body as the amended claim words it: the optional
parts are added only when provided with a truthy (non-empty) value. -/
def specTriggerBody (routing_key summary severity source : String)
    (custom_details : Option Json) (dedup_key : Option String) : Json :=
  Json.obj
    ([("routing_key", Json.str routing_key), ("event_action", Json.str "trigger"),
      ("payload", Json.obj ([("summary", Json.str summary),
        ("severity", Json.str severity), ("source", Json.str source)] ++
        (match custom_details with
         | some cd => if pyTruthy cd then [("custom_details", cd)] else []
         | none => [])))] ++
      (match dedup_key with
       | some dk => if dk != "" then [("dedup_key", Json.str dk)] else []
       | none => []))

/-- The resolve request body as the amended claim words it: `payload` with
the summary is added only when a non-empty summary was provided. -/
def specResolveBody (routing_key dedup_key : String) (summary : Option String) : Json :=
  Json.obj
    ([("routing_key", Json.str routing_key), ("event_action", Json.str "resolve"),
      ("dedup_key", Json.str dedup_key)] ++
      (match summary with
       | some s => if s != "" then [("payload", Json.obj [("summary", Json.str s)])] else []
       | none => []))

/-- One call on a client: either `trigger_incident` or `resolve_incident`
with its arguments. -/
inductive ApiCall where
  | trig (summary severity source : String) (custom_details : Option Json)
      (dedup_key : Option String)
  | res (dedup_key : String) (summary : Option String)

/-- The caller-visible outcome of one call. -/
inductive ApiResult where
  | trig (r : Except PyExn Json)
  | res (r : Except PyExn Bool)

/-- Executes one call against the client, returning the outcome and the
client state afterwards (the methods assign no attribute of `self`). -/
def execCall (c : Client) (transport : Transport) : ApiCall → ApiResult × Client
  | .trig summary severity source cd dk =>
      (.trig (trigger_incident c transport summary severity source cd dk).1, c)
  | .res dk summary =>
      (.res (resolve_incident c transport dk summary).1, c)

/-- Executes a sequence of calls, threading the client state and allowing
an arbitrary transport behaviour for each call. -/
def runSeq (c : Client) : List (ApiCall × Transport) → List ApiResult × Client
  | [] => ([], c)
  | (call, tr) :: rest =>
      let step := execCall c tr call
      let next := runSeq step.2 rest
      (step.1 :: next.1, next.2)

/-- The methods never modify the client: `execCall` leaves the state
unchanged. -/
theorem execCall_state (c : Client) (tr : Transport) (call : ApiCall) :
    (execCall c tr call).2 = c := by
  cases call <;> rfl

/-- C2: when the routing key is absent (`None`), `trigger_incident`
returns `None` and `resolve_incident` returns `False`, and neither issues
any HTTP POST. -/
theorem absentRoutingKey_shortCircuits (c : Client) (tr tr2 : Transport)
    (summary severity source : String) (cd : Option Json) (dk : Option String)
    (dk2 : String) (su2 : Option String) (h : c.routing_key = none) :
    trigger_incident c tr summary severity source cd dk = (.ok .null, []) ∧
    resolve_incident c tr2 dk2 su2 = (.ok false, []) := by
  constructor <;> simp [trigger_incident, resolve_incident, h, truthyOptStr]

/-- Witness for C2 at a concrete degraded client. -/
theorem absentRoutingKey_shortCircuits_check :
    (Client.mk "p" none).routing_key = none ∧
    trigger_incident ⟨"p", none⟩ (fun _ => .raised "net") "s" "error" "mai-service"
      none none = (.ok .null, []) ∧
    resolve_incident ⟨"p", none⟩ (fun _ => .raised "net") "D" none = (.ok false, []) :=
  ⟨rfl, absentRoutingKey_shortCircuits ⟨"p", none⟩ (fun _ => .raised "net")
    (fun _ => .raised "net") "s" "error" "mai-service" none none "D" none rfl⟩

/-- C1 (failing input): with a present routing key, a 2xx response whose
body parses as a JSON array makes `trigger_incident` evaluate
`result.get("dedup_key")` on a list, which raises `AttributeError`; the
`except requests.exceptions.RequestException` clause does not catch it, so
the exception propagates to the caller, contradicting the never-throw
contract. -/
theorem triggerIncident_nonObjectBody_raises :
    (trigger_incident ⟨"proj", some "rk"⟩
      (fun _ => .ok ⟨200, "[]", .ok (Json.arr [])⟩)
      "s" "error" "mai-service" none none).1 = .error ⟨false, "AttributeError"⟩ := rfl

/-- C9: a successfully fetched secret that trims to the empty string is
stored as `""`, which is falsy, so both operations short-circuit exactly
as for an absent routing key and issue no HTTP POST. -/
theorem emptySecret_behavesAbsent (defaultSecret gcp_project : String)
    (override : Option String) (store : SecretStore) (v : String)
    (tr tr2 : Transport) (summary severity source : String)
    (cd : Option Json) (dk : Option String) (dk2 : String) (su2 : Option String)
    (hs : store (secretPath gcp_project (chosenSecretName override defaultSecret)) = .ok v)
    (hv : pyStrip v = "") :
    (clientInitCore defaultSecret gcp_project override store).1.routing_key = some "" ∧
    trigger_incident (clientInitCore defaultSecret gcp_project override store).1
      tr summary severity source cd dk = (.ok .null, []) ∧
    resolve_incident (clientInitCore defaultSecret gcp_project override store).1
      tr2 dk2 su2 = (.ok false, []) := by
  have hrk : (clientInitCore defaultSecret gcp_project override store).1.routing_key
      = some "" := by
    simp [clientInitCore, hs, hv]
  refine ⟨hrk, ?_, ?_⟩ <;>
    simp [trigger_incident, resolve_incident, hrk, truthyOptStr]

/-- Witness for C9 at a concrete whitespace-only secret value. -/
theorem emptySecret_behavesAbsent_check :
    pyStrip " \n " = "" ∧
    (clientInitCore "PAGERDUTY_ROUTING_KEY" "p" none (fun _ => .ok " \n ")).1.routing_key
      = some "" ∧
    trigger_incident (clientInitCore "PAGERDUTY_ROUTING_KEY" "p" none
      (fun _ => .ok " \n ")).1 (fun _ => .raised "net") "s" "error" "mai-service"
      none none = (.ok .null, []) ∧
    resolve_incident (clientInitCore "PAGERDUTY_ROUTING_KEY" "p" none
      (fun _ => .ok " \n ")).1 (fun _ => .raised "net") "D" none = (.ok false, []) :=
  ⟨by decide, emptySecret_behavesAbsent "PAGERDUTY_ROUTING_KEY" "p" none
    (fun _ => .ok " \n ") " \n " (fun _ => .raised "net") (fun _ => .raised "net")
    "s" "error" "mai-service" none none "D" none rfl (by decide)⟩

/-- C10: an empty-string override is falsy in `routing_key_secret or
self.ROUTING_KEY_SECRET`, so construction behaves exactly as with no
override and fetches the class-default secret name. -/
theorem emptyOverride_usesDefault (defaultSecret gcp_project : String)
    (store : SecretStore) :
    clientInitCore defaultSecret gcp_project (some "") store =
      clientInitCore defaultSecret gcp_project none store ∧
    (clientInitCore defaultSecret gcp_project (some "") store).2 =
      [secretPath gcp_project defaultSecret] := by
  constructor
  · rfl
  · cases hs : store (secretPath gcp_project defaultSecret) <;>
      simp [clientInitCore, chosenSecretName, hs]

/-- C6: construction resolves the secret exactly once at the path
`projects/{project}/secrets/{name}/versions/latest`; on success the stored
routing key is the trimmed decoded value, on any store failure it is
`none`, and in both cases construction completes with `gcp_project`
stored. -/
theorem clientInit_spec (defaultSecret gcp_project : String)
    (override : Option String) (store : SecretStore) :
    (clientInitCore defaultSecret gcp_project override store).2 =
      [secretPath gcp_project (chosenSecretName override defaultSecret)] ∧
    (clientInitCore defaultSecret gcp_project override store).1.gcp_project
      = gcp_project ∧
    (∀ v, store (secretPath gcp_project (chosenSecretName override defaultSecret)) = .ok v →
      (clientInitCore defaultSecret gcp_project override store).1.routing_key
        = some (pyStrip v)) ∧
    (∀ e, store (secretPath gcp_project (chosenSecretName override defaultSecret)) = .error e →
      (clientInitCore defaultSecret gcp_project override store).1.routing_key = none) := by
  cases hs : store (secretPath gcp_project (chosenSecretName override defaultSecret)) <;>
    simp [clientInitCore, hs]

/-- Witness for C6 at a concrete store behaviour. -/
theorem clientInit_spec_check :
    (clientInitCore "DEF" "p" none (fun _ => .ok " k ")).2 =
      ["projects/p/secrets/DEF/versions/latest"] ∧
    (clientInitCore "DEF" "p" none (fun _ => .ok " k ")).1.routing_key = some "k" := by
  have h := clientInit_spec "DEF" "p" none (fun _ => .ok " k ")
  exact ⟨h.1.trans (by decide), (h.2.2.1 " k " rfl).trans (by decide)⟩

/-- C7: the alert variant constructed without an override behaves exactly
like the base client constructed with the alert secret name passed
explicitly, fetching `PAGERDUTY_VALIDATION_ALERTS_ROUTING_KEY` instead of
the base default `PAGERDUTY_ROUTING_KEY`. -/
theorem alertClient_spec (gcp_project : String) (store : SecretStore) :
    pagerDutyAlertClientInit gcp_project none store =
      pagerDutyClientInit gcp_project (some ALERT_ROUTING_KEY_SECRET) store ∧
    (pagerDutyAlertClientInit gcp_project none store).2 =
      [secretPath gcp_project ALERT_ROUTING_KEY_SECRET] ∧
    ALERT_ROUTING_KEY_SECRET ≠ ROUTING_KEY_SECRET := by
  refine ⟨?_, ?_, by decide⟩
  · have hne : ¬(ALERT_ROUTING_KEY_SECRET = "") := by decide
    simp [pagerDutyAlertClientInit, pagerDutyClientInit, clientInitCore,
      chosenSecretName, hne]
  · cases hs : store (secretPath gcp_project ALERT_ROUTING_KEY_SECRET) <;>
      simp [pagerDutyAlertClientInit, clientInitCore, chosenSecretName, hs]

/-- C8: the client state is unchanged by any sequence of calls, and the
outcome of each call in a sequence is the outcome it would have had as the
only call on the freshly constructed client. -/
theorem client_stateless (c : Client) (calls : List (ApiCall × Transport)) :
    (runSeq c calls).2 = c ∧
    (runSeq c calls).1 = calls.map (fun p => (execCall c p.2 p.1).1) := by
  induction calls with
  | nil => exact ⟨rfl, rfl⟩
  | cons hd tl ih =>
      obtain ⟨call, tr⟩ := hd
      constructor
      · simp [runSeq, execCall_state, ih.1]
      · simp [runSeq, execCall_state, ih.2]

/-- C3 (counterexample): a 2xx response whose JSON object carries
`"dedup_key": ""` has the field present, yet `trigger_incident` returns
the caller's argument `"D"` instead of the response's value, because the
code tests `result.get("dedup_key")` for truthiness, not presence. -/
theorem triggerDedupEcho_counterexample :
    (trigger_incident ⟨"proj", some "rk"⟩
      (fun _ => .ok ⟨200, "", .ok (Json.obj [("dedup_key", Json.str "")])⟩)
      "s" "error" "mai-service" none (some "D")).1 = .ok (Json.str "D") ∧
    List.lookup "dedup_key" [("dedup_key", Json.str "")] = some (Json.str "") ∧
    Json.str "D" ≠ Json.str "" := by
  refine ⟨rfl, rfl, ?_⟩
  intro h
  injection h with h
  exact absurd h (by decide)

/-- C3 (amended): with a truthy routing key and a 2xx response whose body
parses as a JSON object, `trigger_incident` returns the response's
`dedup_key` field when it is present with a truthy value, and otherwise
the `dedup_key` argument the caller passed in; hence a caller-supplied
non-empty `dedup_key` always yields a truthy key on such a trigger. -/
theorem triggerIncident_dedupKey_spec (c : Client) (transport : Transport)
    (summary severity source : String) (cd : Option Json) (dk : Option String)
    (st : Nat) (tx : String) (fields : List (String × Json))
    (hrk : truthyOptStr c.routing_key = true)
    (hpost : transport (triggerRequest (c.routing_key.getD "") summary severity source cd dk)
      = .ok ⟨st, tx, .ok (Json.obj fields)⟩)
    (hlo : 200 ≤ st) (hhi : st < 300) :
    (trigger_incident c transport summary severity source cd dk).1 =
      .ok (match fields.lookup "dedup_key" with
        | some v => if pyTruthy v then v else jsonOfOptStr dk
        | none => jsonOfOptStr dk) ∧
    (truthyOptStr dk = true →
      pyTruthy (match fields.lookup "dedup_key" with
        | some v => if pyTruthy v then v else jsonOfOptStr dk
        | none => jsonOfOptStr dk) = true) := by
  have hcond : ¬(400 ≤ st ∧ st < 600) := by omega
  constructor
  · cases hl : fields.lookup "dedup_key" with
    | none =>
        simp [trigger_incident, hrk, hpost, requestsPost, raiseForStatus, hcond,
          responseJson, jsonGet, tryExceptRequestExc, pyOr, pyTruthy, hl,
          Bind.bind, Except.bind, Pure.pure, Except.pure]
    | some v =>
        by_cases hv : pyTruthy v = true <;>
          simp [trigger_incident, hrk, hpost, requestsPost, raiseForStatus, hcond,
            responseJson, jsonGet, tryExceptRequestExc, pyOr, hl, hv,
            Bind.bind, Except.bind, Pure.pure, Except.pure]
  · intro hdk
    obtain ⟨s, rfl⟩ : ∃ s, dk = some s := by
      cases dk <;> simp_all [truthyOptStr]
    have hs : (s != "") = true := by simpa [truthyOptStr] using hdk
    cases hl : fields.lookup "dedup_key" with
    | none =>
        simp [jsonOfOptStr, pyTruthy, hs]
    | some v =>
        by_cases hv : pyTruthy v = true
        · simp [hv]
        · have hv2 : pyTruthy v = false := by simpa using hv
          simp only [hv2, Bool.false_eq_true, if_false, jsonOfOptStr]
          simpa [pyTruthy] using hs

/-- Witness for the amended C3 at a concrete echoed key. -/
theorem triggerIncident_dedupKey_spec_check :
    truthyOptStr (some "rk") = true ∧ 200 ≤ 200 ∧ 200 < 300 ∧
    (trigger_incident ⟨"p", some "rk"⟩
      (fun _ => .ok ⟨200, "", .ok (Json.obj [("dedup_key", Json.str "K")])⟩)
      "s" "error" "mai-service" none (some "D")).1 = .ok (Json.str "K") := by
  refine ⟨by decide, by decide, by decide, ?_⟩
  have h := triggerIncident_dedupKey_spec ⟨"p", some "rk"⟩
    (fun _ => .ok ⟨200, "", .ok (Json.obj [("dedup_key", Json.str "K")])⟩)
    "s" "error" "mai-service" none (some "D") 200 ""
    [("dedup_key", Json.str "K")] (by decide) rfl (by decide) (by decide)
  exact h.1.trans rfl

/-- C4 (counterexample): a final response with status 304 is not 2xx, yet
`raise_for_status` does not raise for it, so `resolve_incident` returns
`True`. -/
theorem resolveStatus_counterexample :
    (resolve_incident ⟨"proj", some "rk"⟩
      (fun _ => .ok ⟨304, "", .error "no body"⟩) "D" none).1 = .ok true ∧
    ¬(200 ≤ 304 ∧ 304 < 300) := ⟨rfl, by decide⟩

/-- C4 (amended): with a truthy routing key, `resolve_incident` returns
`True` iff the POST returns a response whose status is outside
`[400, 600)` — the statuses for which `raise_for_status` does not raise,
which in ordinary operation means 2xx; it returns `False` on a raised
transport error or a 4xx/5xx status, never raises, and never inspects the
response body. -/
theorem resolveIncident_success_iff (c : Client) (transport : Transport)
    (dk : String) (su : Option String)
    (hrk : truthyOptStr c.routing_key = true) :
    ((resolve_incident c transport dk su).1 = .ok true ↔
      ∃ r : HttpResponse,
        transport (resolveRequest (c.routing_key.getD "") dk su) = .ok r ∧
        ¬(400 ≤ r.status ∧ r.status < 600)) ∧
    ((resolve_incident c transport dk su).1 = .ok true ∨
      (resolve_incident c transport dk su).1 = .ok false) ∧
    (∀ (st : Nat) (t1 t2 : String) (b1 b2 : Except String Json),
      (resolve_incident c (fun _ => .ok ⟨st, t1, b1⟩) dk su).1 =
        (resolve_incident c (fun _ => .ok ⟨st, t2, b2⟩) dk su).1) := by
  refine ⟨?_, ?_, ?_⟩
  · cases htr : transport (resolveRequest (c.routing_key.getD "") dk su) with
    | raised m =>
        simp [resolve_incident, hrk, htr, requestsPost, tryExceptRequestExc,
          Bind.bind, Except.bind, Pure.pure, Except.pure]
    | ok r =>
        by_cases hc : 400 ≤ r.status ∧ r.status < 600
        · simp [resolve_incident, hrk, htr, requestsPost, raiseForStatus, hc,
            tryExceptRequestExc, Bind.bind, Except.bind, Pure.pure, Except.pure]
        · simp only [resolve_incident, hrk, htr, requestsPost, raiseForStatus,
            if_neg hc, tryExceptRequestExc, Bool.not_true, Bool.false_eq_true,
            if_false, Bind.bind, Except.bind, Pure.pure, Except.pure]
          constructor
          · intro _
            exact ⟨r, rfl, hc⟩
          · intro _
            trivial
  · cases htr : transport (resolveRequest (c.routing_key.getD "") dk su) with
    | raised m =>
        simp [resolve_incident, hrk, htr, requestsPost, tryExceptRequestExc,
          Bind.bind, Except.bind, Pure.pure, Except.pure]
    | ok r =>
        by_cases hc : 400 ≤ r.status ∧ r.status < 600 <;>
          simp [resolve_incident, hrk, htr, requestsPost, raiseForStatus, hc,
            tryExceptRequestExc, Bind.bind, Except.bind, Pure.pure, Except.pure]
  · intro st t1 t2 b1 b2
    by_cases hc : 400 ≤ st ∧ st < 600 <;>
      simp [resolve_incident, hrk, requestsPost, raiseForStatus, hc,
        tryExceptRequestExc, Bind.bind, Except.bind, Pure.pure, Except.pure]

/-- Witness for the amended C4 at a concrete 202 response. -/
theorem resolveIncident_success_iff_check :
    truthyOptStr (some "rk") = true ∧
    (resolve_incident ⟨"p", some "rk"⟩ (fun _ => .ok ⟨202, "", .error "x"⟩)
      "D" (some "done")).1 = .ok true := by
  refine ⟨by decide, ?_⟩
  have h := resolveIncident_success_iff ⟨"p", some "rk"⟩
    (fun _ => .ok ⟨202, "", .error "x"⟩) "D" (some "done") (by decide)
  exact h.1.mpr ⟨⟨202, "", .error "x"⟩, rfl, by decide⟩

/-- C5 (counterexample): with `custom_details` provided as an empty dict
(falsy in Python), the body actually sent omits `custom_details`, whereas
the body the claim describes includes it, so the claim's "added only when
provided" does not determine the request body the code sends. -/
theorem requestBody_counterexample :
    (trigger_incident ⟨"p", some "rk"⟩ (fun _ => .raised "net") "s" "error"
      "mai-service" (some (Json.obj [])) none).2 =
      [⟨PAGERDUTY_EVENTS_API_URL,
        triggerBody "rk" "s" "error" "mai-service" (some (Json.obj [])) none,
        "application/json", 10⟩] ∧
    triggerBody "rk" "s" "error" "mai-service" (some (Json.obj [])) none ≠
      statedTriggerBody "rk" "s" "error" "mai-service" (some (Json.obj [])) none := by
  refine ⟨rfl, ?_⟩
  intro h
  injection h with hf
  injection hf with h1 hrest
  injection hrest with h2 hrest2
  injection hrest2 with h3 hnil
  have hsnd : Json.obj [("summary", Json.str "s"), ("severity", Json.str "error"),
      ("source", Json.str "mai-service")] =
      Json.obj [("summary", Json.str "s"), ("severity", Json.str "error"),
        ("source", Json.str "mai-service"), ("custom_details", Json.obj [])] :=
    congrArg Prod.snd h3
  injection hsnd with hl
  have := congrArg List.length hl
  simp at this

/-- Helper for the amended C5: the body built by `trigger_incident` equals
the body the amended claim describes. -/
theorem triggerBody_eq_spec (routing_key summary severity source : String)
    (cd : Option Json) (dk : Option String) :
    triggerBody routing_key summary severity source cd dk =
      specTriggerBody routing_key summary severity source cd dk := by
  cases cd with
  | none =>
      cases dk with
      | none => simp [triggerBody, specTriggerBody]
      | some d =>
          by_cases hd : (d != "") = true <;>
            simp [triggerBody, specTriggerBody, hd]
  | some j =>
      cases dk with
      | none =>
          by_cases hj : pyTruthy j = true <;>
            simp [triggerBody, specTriggerBody, hj]
      | some d =>
          by_cases hj : pyTruthy j = true <;> by_cases hd : (d != "") = true <;>
            simp [triggerBody, specTriggerBody, hj, hd]

/-- Helper for the amended C5: the body built by `resolve_incident` equals
the body the amended claim describes. -/
theorem resolveBody_eq_spec (routing_key dedup_key : String) (su : Option String) :
    resolveBody routing_key dedup_key su = specResolveBody routing_key dedup_key su := by
  cases su with
  | none => simp [resolveBody, specResolveBody]
  | some s =>
      by_cases hs : (s != "") = true <;>
        simp [resolveBody, specResolveBody, hs]

/-- C5 (amended): with a truthy routing key, each operation issues exactly
one POST, to the fixed vendor URL with `Content-Type: application/json`
and a 10 second timeout, whose body is the stated shape with
`custom_details`, `dedup_key` and the resolve `payload.summary` included
exactly when provided with a truthy (non-empty) value. -/
theorem requestShape_spec (c : Client) (tr tr2 : Transport)
    (summary severity source : String) (cd : Option Json) (dk : Option String)
    (dk2 : String) (su2 : Option String)
    (hrk : truthyOptStr c.routing_key = true) :
    (trigger_incident c tr summary severity source cd dk).2 =
      [⟨PAGERDUTY_EVENTS_API_URL,
        specTriggerBody (c.routing_key.getD "") summary severity source cd dk,
        "application/json", 10⟩] ∧
    (resolve_incident c tr2 dk2 su2).2 =
      [⟨PAGERDUTY_EVENTS_API_URL,
        specResolveBody (c.routing_key.getD "") dk2 su2,
        "application/json", 10⟩] := by
  constructor <;>
    simp [trigger_incident, resolve_incident, hrk, triggerRequest, resolveRequest,
      triggerBody_eq_spec, resolveBody_eq_spec]

/-- Witness for the amended C5: the concrete requests issued by a trigger
with custom details and dedup key, and by a resolve with a summary. -/
theorem requestShape_spec_check :
    truthyOptStr (some "rk") = true ∧
    (trigger_incident ⟨"p", some "rk"⟩ (fun _ => .raised "x") "s" "critical"
      "src" (some (Json.obj [("a", Json.num 1)])) (some "D")).2 =
      [⟨"https://events.pagerduty.com/v2/enqueue",
        Json.obj [("routing_key", Json.str "rk"),
          ("event_action", Json.str "trigger"),
          ("payload", Json.obj [("summary", Json.str "s"),
            ("severity", Json.str "critical"), ("source", Json.str "src"),
            ("custom_details", Json.obj [("a", Json.num 1)])]),
          ("dedup_key", Json.str "D")],
        "application/json", 10⟩] ∧
    (resolve_incident ⟨"p", some "rk"⟩ (fun _ => .raised "x") "D" (some "done")).2 =
      [⟨"https://events.pagerduty.com/v2/enqueue",
        Json.obj [("routing_key", Json.str "rk"),
          ("event_action", Json.str "resolve"), ("dedup_key", Json.str "D"),
          ("payload", Json.obj [("summary", Json.str "done")])],
        "application/json", 10⟩] := by
  have h := requestShape_spec ⟨"p", some "rk"⟩ (fun _ => .raised "x")
    (fun _ => .raised "x") "s" "critical" "src" (some (Json.obj [("a", Json.num 1)]))
    (some "D") "D" (some "done") (by decide)
  exact ⟨by decide, h.1.trans rfl, h.2.trans rfl⟩

end PagerDuty
